import Mathlib

/-!
LibGenMiner — verification of the search-and-extract pipeline.

Shallow embedding of `src/libgenminer.py`: the row-extraction logic
(`_extract_book_data`), configuration loading and merging
(`ConfigManager._load_config`), search-history persistence
(`_save_search_history`), export filename generation and format dispatch
(`export_results`), and the session lifecycle (`close` / lazy driver
initialization in `search_books`).

Browser, HTML and filesystem effects are modelled by explicit data:
a table row is a list of cells (each cell has a text and an optional
anchor href), file reads are given as an input value, and file writes
are returned as data.
-/

namespace LibGenMiner

/-! ## Data model: result rows and extracted records -/

/-- The Python `str.strip()`: drop leading and trailing whitespace. (Defined
by structural recursion over the character list so that concrete rows
evaluate inside proofs.) -/
def pyStrip (s : String) : String :=
  String.mk (((s.data.dropWhile Char.isWhitespace).reverse.dropWhile
    Char.isWhitespace).reverse)

/-- One `<td>` cell of a result row: its visible text, and the `href` of a
nested `<a>` anchor when one exists (`find_element(By.TAG_NAME, "a")`
succeeds exactly when `anchor` is `some`). -/
structure Cell where
  text : String
  anchor : Option String
  deriving DecidableEq, Repr

/-- The `BookData` dataclass of the source, field for field. -/
structure BookData where
  title : String
  author : String
  year : String
  format : String
  size : String
  language : String
  pages : String
  publisher : String
  isbn : String
  download_link : String
  deriving DecidableEq, Repr

/-- The two exceptions the parse of a single row can raise in the source:
an `IndexError` from `cols[i]` out of bounds, and the selenium
`NoSuchElementException` from `cols[2].find_element(By.TAG_NAME, "a")`
when the title cell holds no anchor. -/
inductive RowError where
  | indexError
  | noSuchElement
  deriving DecidableEq, Repr

deriving instance DecidableEq for Except

/-- `cols[i]` in Python: the cell when `i` is in bounds, else an
`IndexError`. -/
def cellAt (cols : List Cell) (i : Nat) : Except RowError Cell :=
  match cols[i]? with
  | some c => .ok c
  | none => .error .indexError

/-- The `BookData(...)` construction of `_extract_book_data` for one row,
with cell accesses in the evaluation order of the source
(`cols[2], cols[1], cols[4], cols[8], cols[7], cols[6], cols[5], cols[3]`,
then the guarded `cols[9]`, then the anchor lookup in the title cell).
`cols[9].text.strip() if len(cols) > 9 else ""` is rendered via `cols[9]?`,
which is `some` exactly when `len(cols) > 9`. -/
def extractRow (cols : List Cell) : Except RowError BookData := do
  let c2 ← cellAt cols 2
  let c1 ← cellAt cols 1
  let c4 ← cellAt cols 4
  let c8 ← cellAt cols 8
  let c7 ← cellAt cols 7
  let c6 ← cellAt cols 6
  let c5 ← cellAt cols 5
  let c3 ← cellAt cols 3
  let isbn := match cols[9]? with
    | some c9 => pyStrip c9.text
    | none => ""
  let href ← match c2.anchor with
    | some h => Except.ok h
    | none => Except.error RowError.noSuchElement
  pure { title := pyStrip c2.text
         author := pyStrip c1.text
         year := pyStrip c4.text
         format := pyStrip c8.text
         size := pyStrip c7.text
         language := pyStrip c6.text
         pages := pyStrip c5.text
         publisher := pyStrip c3.text
         isbn := isbn
         download_link := href }

/-- The row loop of `_extract_book_data`: rows with fewer than 9 cells are
skipped by the `len(cols) >= 9` guard; a row that raises while being parsed
aborts the loop (the whole loop sits inside one `try`), and the `books`
accumulated so far are returned by the surrounding function. -/
def extractBooks : List (List Cell) → List BookData
  | [] => []
  | cols :: rest =>
    if 9 ≤ cols.length then
      match extractRow cols with
      | .ok b => b :: extractBooks rest
      | .error _ => []
    else
      extractBooks rest

/-- `_extract_book_data`: locate the results table (`none` models the
`wait.until` timeout, whose exception is caught and yields `books = []`),
take `rows[1 : max_results + 1]` (drop the header row, cap at
`max_results`), and run the row loop. -/
def extract_book_data (table : Option (List (List Cell))) (max_results : Nat) :
    List BookData :=
  match table with
  | none => []
  | some rows => extractBooks ((rows.drop 1).take max_results)

/-! ## Configuration store -/

/-- JSON values as held in a configuration dictionary. -/
inductive JValue where
  | str (s : String)
  | num (n : Int)
  | bool (b : Bool)
  | arr (l : List JValue)
  | obj (l : List (String × JValue))

/-- A JSON object / Python dict, as an association list with the
leftmost binding of a key the visible one. -/
abbrev JDict := List (String × JValue)

/-- `ConfigManager.DEFAULT_CONFIG`, field for field. -/
def DEFAULT_CONFIG : JDict :=
  [("max_results", .num 20),
   ("timeout", .num 10),
   ("download_path", .str "downloads"),
   ("search_history_file", .str "search_history.json"),
   ("max_retries", .num 3),
   ("wait_time", .arr [.num 1, .num 3]),
   ("browser_options", .obj
     [("headless", .bool false),
      ("disable_images", .bool true),
      ("user_agent", .str "Mozilla/5.0 (Windows NT 10.0; Win64; x64) AppleWebKit/537.36")])]

/-- The Python `{**defaults, **override}`: one flat dict whose keys are those
of both arguments, the override value winning on every shared key.
Nested objects are values like any other, so they are replaced whole. -/
def mergeConfig (defaults override : JDict) : JDict :=
  defaults.filter (fun p => (override.lookup p.1).isNone) ++ override

/-- What `open(self.config_file, 'r')` + `json.load(f)` produced:
the file was absent (`FileNotFoundError`), some other failure occurred
(malformed JSON, permission error, ...), or a JSON object was read. -/
inductive ReadResult where
  | fileNotFound
  | otherFailure
  | ok (j : JDict)

/-- The one error `_load_config` can propagate (spec taxonomy:
`ConfigLoadError`) — the uncaught exception from a read failure other
than `FileNotFoundError`. -/
inductive ConfigLoadError where
  | loadFailed
  deriving DecidableEq, Repr

/-- `ConfigManager._load_config`, returning the outcome together with the
list of configurations written to the config file (`_save_config` calls).
On `FileNotFoundError` the defaults are written out and returned; any
other read failure escapes the `except FileNotFoundError` clause and
propagates; a successfully read object is shallow-merged over the
defaults. -/
def load_config (r : ReadResult) : Except ConfigLoadError JDict × List JDict :=
  match r with
  | .fileNotFound => (.ok DEFAULT_CONFIG, [DEFAULT_CONFIG])
  | .otherFailure => (.error .loadFailed, [])
  | .ok j => (.ok (mergeConfig DEFAULT_CONFIG j), [])

/-! ## Search history log -/

/-- One entry of the history array, as built in `_save_search_history`. -/
structure HistoryEntry where
  timestamp : String
  search_term : String
  results_count : Nat
  deriving DecidableEq, Repr

/-- The state of the history file: absent, holding a JSON array of
entries (an empty history is the array `[]`), or unreadable
(`json.load` raises). -/
inductive HistFile where
  | absent
  | content (h : List HistoryEntry)
  | unreadable
  deriving DecidableEq

/-- `_save_search_history`: an absent file is treated as the empty array,
an existing file is read in full, one entry is appended and the full
array rewritten. A read failure (`unreadable`) raises inside the `try`;
the error is logged and swallowed before any write, leaving the file as
it was. Returns the file state after the call. -/
def save_search_history (file : HistFile) (now search_term : String)
    (results_count : Nat) : HistFile :=
  match file with
  | .absent => .content ([] ++ [⟨now, search_term, results_count⟩])
  | .content h => .content (h ++ [⟨now, search_term, results_count⟩])
  | .unreadable => .unreadable

/-! ## Export writer -/

/-- The errors `export_results` can raise: the explicit `ValueError` for an
unrecognized format string (spec taxonomy: `UnsupportedFormatError`), and
the `ValueError` pandas raises from `df.to_excel` when it can infer no
writer engine from the file extension. -/
inductive ExportError where
  | unsupportedFormat (format : String)
  | noEngineForFiletype (ext : String)
  deriving DecidableEq, Repr

/-- `export_results`: builds `search_results_<timestamp>.<format>` from the
format string itself and dispatches on `csv` / `excel` / `json`; anything
else raises `ValueError` (spec taxonomy: `UnsupportedFormatError`) before
any write. The `excel` branch calls `df.to_excel` on the
`.excel`-suffixed filename; pandas infers the writer engine from the file
extension and registers none for the extension `excel`, so that call
deterministically raises `ValueError` and writes nothing (the exception
is logged and re-raised). Returns the outcome (the path, or the error)
together with the list of files written. -/
def export_results (timestamp format : String) :
    Except ExportError String × List String :=
  let filename := "search_results_" ++ timestamp ++ "." ++ format
  if format = "csv" then (.ok filename, [filename])
  else if format = "excel" then (.error (.noEngineForFiletype "excel"), [])
  else if format = "json" then (.ok filename, [filename])
  else (.error (.unsupportedFormat format), [])

/-! ## Browser session lifecycle -/

/-- The fields of `BookSearcher` the session lifecycle touches: the
`driver` handle (an opaque id; `none` is the Python `None`) and, as a
recorded effect, the handles on which `quit()` was invoked. -/
structure SearcherState where
  driver : Option Nat
  quitCalls : List Nat
  deriving DecidableEq, Repr

/-- `close()`: `if self.driver: self.driver.quit()` — quits the live
session but never assigns `self.driver`, so the handle field keeps its
value. -/
def close (s : SearcherState) : SearcherState :=
  match s.driver with
  | some d => { s with quitCalls := s.quitCalls ++ [d] }
  | none => s

/-- The lazy-initialization step at the top of `search_books`:
`if not self.driver: self._initialize_driver()`. `fresh` is the handle a
new launch would produce; the returned flag says whether a launch
happened. -/
def ensure_driver (s : SearcherState) (fresh : Nat) : SearcherState × Bool :=
  match s.driver with
  | none => ({ s with driver := some fresh }, true)
  | some _ => (s, false)

/-! ## Concrete sample inputs -/

/-- A well-formed cell: text `t`, with an anchor pointing at `http://x/t`. -/
def gcell (t : String) : Cell := ⟨t, some ("http://x/" ++ t)⟩

/-- A 9-cell row every cell of which carries an anchor: parses cleanly. -/
def rowOk1 : List Cell := List.replicate 9 (gcell "g1")

/-- A 9-cell row none of whose cells has an anchor: its parse raises
`NoSuchElementException` at the title cell. -/
def rowNoAnchor : List Cell := List.replicate 9 ⟨"bad", none⟩

/-- A second cleanly parsing 9-cell row, placed after the failing one. -/
def rowOk2 : List Cell := List.replicate 9 (gcell "g2")

/-- The record `rowOk1` parses to. -/
def bookOk1 : BookData :=
  ⟨"g1", "g1", "g1", "g1", "g1", "g1", "g1", "g1", "", "http://x/g1"⟩

/-- The record `rowOk2` parses to. -/
def bookOk2 : BookData :=
  ⟨"g2", "g2", "g2", "g2", "g2", "g2", "g2", "g2", "", "http://x/g2"⟩

/-! ## Dictionary-merge lemmas -/

theorem lookup_append (a b : JDict) (k : String) :
    (a ++ b).lookup k = ((a.lookup k).or (b.lookup k)) := by
  induction a with
  | nil => simp [List.lookup]
  | cons p t ih => cases p with | mk x y => by_cases h : k == x <;> simp [List.lookup, h, ih]

theorem filter_lookup_none (d o : JDict) (k : String) (v : JValue)
    (h : o.lookup k = some v) :
    (d.filter (fun p => (o.lookup p.1).isNone)).lookup k = none := by
  induction d with
  | nil => rfl
  | cons p t ih =>
    cases p with | mk x y =>
    rw [List.filter_cons]
    by_cases hk : k == x
    · have hx : x = k := ((beq_iff_eq (a := k) (b := x)).mp hk).symm
      subst hx
      rw [h]
      simpa using ih
    · cases hxo : (o.lookup x).isNone
      · simpa using ih
      · simp only [if_pos rfl]
        simp only [List.lookup, hk, cond_false]
        exact ih

theorem filter_lookup_keep (d o : JDict) (k : String) (h : o.lookup k = none) :
    (d.filter (fun p => (o.lookup p.1).isNone)).lookup k = d.lookup k := by
  induction d with
  | nil => rfl
  | cons p t ih =>
    cases p with | mk x y =>
    rw [List.filter_cons]
    by_cases hk : k == x
    · have hx : x = k := ((beq_iff_eq (a := k) (b := x)).mp hk).symm
      subst hx
      rw [h]
      simp only [Option.isNone_none, if_pos rfl]
      simp [List.lookup, hk]
    · cases hxo : (o.lookup x).isNone
      · simp only [Bool.false_eq_true, if_false]
        rw [ih]
        simp [List.lookup, hk]
      · simp only [if_pos rfl]
        simp only [List.lookup, hk, cond_false]
        exact ih

/-- The merged configuration answers every lookup from the override first
and from the defaults otherwise: the semantics of `{**defaults, **override}`. -/
theorem mergeConfig_lookup (d o : JDict) (k : String) :
    (mergeConfig d o).lookup k = ((o.lookup k).or (d.lookup k)) := by
  unfold mergeConfig
  rw [lookup_append]
  cases h : o.lookup k with
  | none => rw [filter_lookup_keep d o k h]; simp
  | some v => rw [filter_lookup_none d o k v h]; simp

/-! ## Shared extraction lemmas -/

/-- Successful parse of one row: with cells at positions 1–8 and an anchor
in the title cell, `extractRow` returns exactly the positionally mapped
record. -/
theorem extractRow_ok (cols : List Cell) (c1 c2 c3 c4 c5 c6 c7 c8 : Cell)
    (href : String)
    (h1 : cols[1]? = some c1) (h2 : cols[2]? = some c2)
    (h3 : cols[3]? = some c3) (h4 : cols[4]? = some c4)
    (h5 : cols[5]? = some c5) (h6 : cols[6]? = some c6)
    (h7 : cols[7]? = some c7) (h8 : cols[8]? = some c8)
    (ha : c2.anchor = some href) :
    extractRow cols = .ok
      { title := pyStrip c2.text, author := pyStrip c1.text,
        year := pyStrip c4.text, format := pyStrip c8.text,
        size := pyStrip c7.text, language := pyStrip c6.text,
        pages := pyStrip c5.text, publisher := pyStrip c3.text,
        isbn := match cols[9]? with | some c9 => pyStrip c9.text | none => "",
        download_link := href } := by
  simp [extractRow, cellAt, h1, h2, h3, h4, h5, h6, h7, h8, ha, bind, Except.bind,
    pure, Except.pure]

/-- Failing parse of one row: cells at positions 1–8 but no anchor in the
title cell means `extractRow` raises `NoSuchElementException`. -/
theorem extractRow_noAnchor (cols : List Cell) (c1 c2 c3 c4 c5 c6 c7 c8 : Cell)
    (h1 : cols[1]? = some c1) (h2 : cols[2]? = some c2)
    (h3 : cols[3]? = some c3) (h4 : cols[4]? = some c4)
    (h5 : cols[5]? = some c5) (h6 : cols[6]? = some c6)
    (h7 : cols[7]? = some c7) (h8 : cols[8]? = some c8)
    (ha : c2.anchor = none) :
    extractRow cols = .error .noSuchElement := by
  simp [extractRow, cellAt, h1, h2, h3, h4, h5, h6, h7, h8, ha, bind, Except.bind,
    pure, Except.pure]

/-- The row loop yields at most one record per row. -/
theorem extractBooks_length_le (l : List (List Cell)) :
    (extractBooks l).length ≤ l.length := by
  induction l with
  | nil => simp [extractBooks]
  | cons cols rest ih =>
    by_cases h : 9 ≤ cols.length
    · cases hr : extractRow cols with
      | ok b => simp [extractBooks, h, hr]; omega
      | error e => simp [extractBooks, h, hr]
    · simp [extractBooks, h]; omega

/-! ## Claim theorems -/

/-- Claim C1, as stated, is false: in a batch whose second data row fails
to parse (title cell without an anchor), the third row parses successfully
on its own yet its record is missing from the extraction result — the
single `try/except` around the row loop aborts the batch at the failure
instead of skipping just the one row. -/
theorem row_failure_not_isolated_cex :
    extractRow rowOk2 = .ok bookOk2 ∧
    extract_book_data (some [[], rowOk1, rowNoAnchor, rowOk2]) 20 = [bookOk1] ∧
    bookOk2 ∉ [bookOk1] :=
  ⟨by decide, by decide, by decide⟩

/-- Claim C1 (amended): a failure while parsing one row does not propagate
to the caller, but it is not isolated to the row either — it aborts
parsing of the remaining rows, and extraction returns exactly the records
of the rows before the failing one. -/
theorem row_failure_aborts_batch (pre : List (List Cell)) (bad : List Cell)
    (rest : List (List Cell))
    (hpre : ∀ r ∈ pre, 9 ≤ r.length → ∃ b, extractRow r = .ok b)
    (hbadlen : 9 ≤ bad.length) (e : RowError)
    (hbad : extractRow bad = .error e) :
    extractBooks (pre ++ bad :: rest) = extractBooks pre := by
  induction pre with
  | nil => simp [extractBooks, hbadlen, hbad]
  | cons r t ih =>
    have ih2 := ih (fun s hs h9 => hpre s (List.mem_cons_of_mem r hs) h9)
    by_cases hr : 9 ≤ r.length
    · obtain ⟨b, hb⟩ := hpre r (List.mem_cons_self r t) hr
      show extractBooks (r :: (t ++ bad :: rest)) = extractBooks (r :: t)
      simp only [extractBooks, if_pos hr, hb]
      exact congrArg (b :: ·) ih2
    · show extractBooks (r :: (t ++ bad :: rest)) = extractBooks (r :: t)
      simp only [extractBooks, if_neg hr]
      exact ih2

/-- Witness for the amended claim C1 at a concrete batch. -/
theorem row_failure_aborts_batch_witness :
    extractBooks [rowOk1, rowNoAnchor, rowOk2] = extractBooks [rowOk1] :=
  row_failure_aborts_batch [rowOk1] rowNoAnchor [rowOk2]
    (fun r hr _ => by
      simp only [List.mem_singleton] at hr
      exact ⟨bookOk1, by rw [hr]; decide⟩)
    (by decide) .noSuchElement (by decide)

/-- Claim C2: a row with fewer than 9 cells is excluded without raising
(the loop just moves on to the rest); a row with at least 9 cells is
mapped into a record by fixed positions — 1 author, 2 title, 3 publisher,
4 year, 5 pages, 6 language, 7 size, 8 format, 9 isbn (empty when
position 9 is absent, i.e. when the row has exactly 9 cells) — with the
download link taken from the anchor in the title cell (position 2). -/
theorem extraction_positional_mapping (cols : List Cell)
    (rest : List (List Cell)) (c1 c2 c3 c4 c5 c6 c7 c8 : Cell) (href : String) :
    (cols.length < 9 → extractBooks (cols :: rest) = extractBooks rest) ∧
    (cols[1]? = some c1 → cols[2]? = some c2 → cols[3]? = some c3 →
     cols[4]? = some c4 → cols[5]? = some c5 → cols[6]? = some c6 →
     cols[7]? = some c7 → cols[8]? = some c8 → c2.anchor = some href →
     extractRow cols = .ok
       { title := pyStrip c2.text, author := pyStrip c1.text,
         year := pyStrip c4.text, format := pyStrip c8.text,
         size := pyStrip c7.text, language := pyStrip c6.text,
         pages := pyStrip c5.text, publisher := pyStrip c3.text,
         isbn := match cols[9]? with | some c9 => pyStrip c9.text | none => "",
         download_link := href }) := by
  constructor
  · intro hlt
    simp [extractBooks, Nat.not_le.mpr hlt]
  · intro h1 h2 h3 h4 h5 h6 h7 h8 ha
    exact extractRow_ok cols c1 c2 c3 c4 c5 c6 c7 c8 href h1 h2 h3 h4 h5 h6 h7 h8 ha

/-- Witness for claim C2: a 1-cell row is skipped with extraction moving
on; the 9-cell row `rowOk1` maps positionally to `bookOk1`. -/
theorem extraction_positional_mapping_witness :
    extractBooks [[gcell "a"]] = extractBooks [] ∧
    extractRow rowOk1 = .ok bookOk1 := by
  constructor
  · exact (extraction_positional_mapping [gcell "a"] [] (gcell "a") (gcell "a")
      (gcell "a") (gcell "a") (gcell "a") (gcell "a") (gcell "a") (gcell "a")
      "h").1 (by decide)
  · have h := (extraction_positional_mapping rowOk1 [] (gcell "g1") (gcell "g1")
      (gcell "g1") (gcell "g1") (gcell "g1") (gcell "g1") (gcell "g1")
      (gcell "g1") "http://x/g1").2 rfl rfl rfl rfl rfl rfl rfl rfl rfl
    rw [h]
    decide

/-- Claim C9: on a row of exactly 9 cells, every cell access of the
extraction is in bounds — positions 1 through 8 are read, and the guarded
position 9 is not, so no `IndexError` can arise — and the isbn
field is the empty string. (The only failure such a row can produce is
the missing-anchor one.) -/
theorem nine_cell_row_safe (cols : List Cell) (h : cols.length = 9) :
    extractRow cols ≠ .error .indexError ∧
    ∀ b, extractRow cols = .ok b → b.isbn = "" := by
  have h9 : cols[9]? = none := by
    rw [List.getElem?_eq_none]
    omega
  obtain ⟨c1, e1⟩ : ∃ c, cols[1]? = some c :=
    ⟨_, List.getElem?_eq_getElem (by omega)⟩
  obtain ⟨c2, e2⟩ : ∃ c, cols[2]? = some c :=
    ⟨_, List.getElem?_eq_getElem (by omega)⟩
  obtain ⟨c3, e3⟩ : ∃ c, cols[3]? = some c :=
    ⟨_, List.getElem?_eq_getElem (by omega)⟩
  obtain ⟨c4, e4⟩ : ∃ c, cols[4]? = some c :=
    ⟨_, List.getElem?_eq_getElem (by omega)⟩
  obtain ⟨c5, e5⟩ : ∃ c, cols[5]? = some c :=
    ⟨_, List.getElem?_eq_getElem (by omega)⟩
  obtain ⟨c6, e6⟩ : ∃ c, cols[6]? = some c :=
    ⟨_, List.getElem?_eq_getElem (by omega)⟩
  obtain ⟨c7, e7⟩ : ∃ c, cols[7]? = some c :=
    ⟨_, List.getElem?_eq_getElem (by omega)⟩
  obtain ⟨c8, e8⟩ : ∃ c, cols[8]? = some c :=
    ⟨_, List.getElem?_eq_getElem (by omega)⟩
  cases ha : c2.anchor with
  | none =>
    rw [extractRow_noAnchor cols c1 c2 c3 c4 c5 c6 c7 c8 e1 e2 e3 e4 e5 e6 e7 e8 ha]
    exact ⟨by simp, fun b hb => by cases hb⟩
  | some href =>
    rw [extractRow_ok cols c1 c2 c3 c4 c5 c6 c7 c8 href e1 e2 e3 e4 e5 e6 e7 e8 ha,
      h9]
    refine ⟨by simp, fun b hb => ?_⟩
    cases hb
    rfl

/-- Witness for claim C9 at the concrete 9-cell row `rowOk1`. -/
theorem nine_cell_row_safe_witness :
    extractRow rowOk1 ≠ .error .indexError ∧ bookOk1.isbn = "" :=
  ⟨(nine_cell_row_safe rowOk1 (by decide)).1,
   (nine_cell_row_safe rowOk1 (by decide)).2 bookOk1 (by decide)⟩

/-- Claim C5: extraction never yields more records than `max_results`,
however many rows the results table holds — the slice
`rows[1 : max_results + 1]` caps the rows walked, and each row yields at
most one record. -/
theorem max_results_cap (table : Option (List (List Cell))) (max_results : Nat) :
    (extract_book_data table max_results).length ≤ max_results := by
  cases table with
  | none => simp [extract_book_data]
  | some rows =>
    calc (extract_book_data (some rows) max_results).length
        ≤ ((rows.drop 1).take max_results).length := extractBooks_length_le _
      _ ≤ max_results := List.length_take_le _ _

/-- Claim C3: loading a well-formed override returns the defaults overlaid
key-by-key by the override — an overridden key takes the value from the override,
an absent key keeps its default — and the merge is shallow: an override
carrying a partial `browser_options` object replaces the whole default
sub-object (here, the merged value retains only the `headless` key). -/
theorem load_overrides_defaults_shallow (override : JDict) :
    (load_config (.ok override)).1 = .ok (mergeConfig DEFAULT_CONFIG override) ∧
    (∀ k v, override.lookup k = some v →
      (mergeConfig DEFAULT_CONFIG override).lookup k = some v) ∧
    (∀ k, override.lookup k = none →
      (mergeConfig DEFAULT_CONFIG override).lookup k = DEFAULT_CONFIG.lookup k) ∧
    (mergeConfig DEFAULT_CONFIG
        [("browser_options", .obj [("headless", .bool true)])]).lookup
        "browser_options" = some (.obj [("headless", .bool true)]) := by
  refine ⟨rfl, ?_, ?_, ?_⟩
  · intro k v hk
    rw [mergeConfig_lookup, hk]
    rfl
  · intro k hk
    rw [mergeConfig_lookup, hk]
    rfl
  · rfl

/-- Witness for claim C3 at the override `{"max_results": 50}`: the
overridden key takes the new value, the untouched key keeps its default. -/
theorem load_overrides_defaults_shallow_witness :
    (mergeConfig DEFAULT_CONFIG [("max_results", JValue.num 50)]).lookup
      "max_results" = some (.num 50) ∧
    (mergeConfig DEFAULT_CONFIG [("max_results", JValue.num 50)]).lookup
      "timeout" = DEFAULT_CONFIG.lookup "timeout" := by
  constructor
  · exact (load_overrides_defaults_shallow [("max_results", .num 50)]).2.1
      "max_results" (.num 50) rfl
  · exact (load_overrides_defaults_shallow [("max_results", .num 50)]).2.2.1
      "timeout" rfl

/-- Claim C4: when the config file is absent, `_load_config` writes exactly
the default configuration (one `_save_config` call) and returns those
defaults; on any other read failure it propagates the error and returns no
configuration (and writes nothing). -/
theorem load_config_bootstrap :
    (load_config .fileNotFound).1 = .ok DEFAULT_CONFIG ∧
    (load_config .fileNotFound).2 = [DEFAULT_CONFIG] ∧
    (∀ c, (load_config .otherFailure).1 ≠ .ok c) ∧
    (load_config .otherFailure).1 = .error .loadFailed ∧
    (load_config .otherFailure).2 = [] := by
  refine ⟨rfl, rfl, ?_, rfl, rfl⟩
  intro c hc
  exact Except.noConfusion hc

/-- Claim C8: appending to an absent history file (read as the empty
array) or to an empty history array yields the one-element array holding
exactly the appended term and count; in general the whole array is read,
one entry appended, and the whole array rewritten. -/
theorem history_append_rewrites (now term : String) (count : Nat)
    (h : List HistoryEntry) :
    save_search_history .absent now term count =
      .content [⟨now, term, count⟩] ∧
    save_search_history (.content []) now term count =
      .content [⟨now, term, count⟩] ∧
    save_search_history (.content h) now term count =
      .content (h ++ [⟨now, term, count⟩]) :=
  ⟨rfl, rfl, rfl⟩

/-- Claim C6: every successful export returns a path of the form
`search_results_<timestamp>.<ext>` with the extension matching the chosen
format — `csv` for csv and `json` for json. These are the only formats
that can succeed: a spreadsheet export never completes (its pandas write
always raises), so no successful export ever carries another extension. -/
theorem export_success_filename (timestamp format p : String)
    (h : (export_results timestamp format).1 = .ok p) :
    (format = "csv" ∨ format = "json") ∧
    p = "search_results_" ++ timestamp ++ "." ++ format := by
  by_cases hc : format = "csv"
  · subst hc
    simp only [export_results, if_pos rfl] at h
    cases h
    exact ⟨Or.inl rfl, rfl⟩
  · by_cases he : format = "excel"
    · subst he
      simp [export_results] at h
    · by_cases hj : format = "json"
      · subst hj
        simp only [export_results, if_neg, if_pos rfl, reduceIte] at h
        cases h
        exact ⟨Or.inr rfl, rfl⟩
      · simp [export_results, hc, he, hj] at h

/-- Witness for claim C6 at a concrete successful csv export. -/
theorem export_success_filename_witness :
    ("csv" = "csv" ∨ "csv" = "json") ∧
    "search_results_20240101_120000.csv" =
      "search_results_" ++ "20240101_120000" ++ "." ++ "csv" :=
  export_success_filename "20240101_120000" "csv"
    "search_results_20240101_120000.csv" (by decide)

/-- Claim C7 counts `excel` among the supported formats, but evaluating
export there exposes the slip in the code: the filename is built with the
raw format string as its extension, pandas can infer no writer engine
from the extension `excel`, and `df.to_excel` raises — so a recognized
format fails (with the no-engine error, not the unsupported-format one)
and writes no file, where the claim prescribes a successful write
returning the path. -/
theorem export_excel_always_fails :
    "excel" ∈ (["csv", "excel", "json"] : List String) ∧
    export_results "20240101_120000" "excel" =
      (.error (.noEngineForFiletype "excel"), []) :=
  ⟨by decide, by decide⟩

/-- Claim C10: `close()` calls `quit()` on the live session but never
clears the `driver` field, so the handle stays set; since `search_books`
only launches a session when the handle is `None`, a search after
`close()` does not launch a new session (it reuses the dead handle). -/
theorem close_keeps_driver_handle (s : SearcherState) (d fresh : Nat)
    (h : s.driver = some d) :
    (close s).driver = some d ∧
    close s = { s with quitCalls := s.quitCalls ++ [d] } ∧
    ensure_driver (close s) fresh = (close s, false) := by
  have hc : close s = { s with quitCalls := s.quitCalls ++ [d] } := by
    simp [close, h]
  refine ⟨?_, hc, ?_⟩
  · rw [hc]
    exact h
  · rw [hc]
    simp [ensure_driver, h]

/-- Witness for claim C10 at a state holding live session handle 7. -/
theorem close_keeps_driver_handle_witness :
    (close ⟨some 7, []⟩).driver = some 7 ∧
    close ⟨some 7, []⟩ = ⟨some 7, [7]⟩ ∧
    ensure_driver (close ⟨some 7, []⟩) 99 = (close ⟨some 7, []⟩, false) :=
  ⟨(close_keeps_driver_handle ⟨some 7, []⟩ 7 99 rfl).1,
   (close_keeps_driver_handle ⟨some 7, []⟩ 7 99 rfl).2.1,
   (close_keeps_driver_handle ⟨some 7, []⟩ 7 99 rfl).2.2⟩

end LibGenMiner
